import Mathlib

/- Shallow embedding of src/agent.js, the VPS tunnel panel agent client.
   Pure values model the JavaScript data; OS and subprocess interactions are
   explicit environment parameters; the WebSocket handlers become a step
   function on an explicit session state. -/

/-- JSON values as produced by JSON.parse on an inbound frame. -/
inductive Json where
  | null
  | bool (b : Bool)
  | num (n : Int)
  | str (s : String)
  | arr (elems : List Json)
  | obj (fields : List (String × Json))

/-- JavaScript property access on a defined value: absent keys and
non-object receivers give undefined, modelled as none. -/
def Json.get : Json → String → Option Json
  | .obj fs, k => fs.lookup k
  | _, _ => none

/-- JavaScript truthiness of a defined value. -/
def Json.truthy : Json → Bool
  | .null => false
  | .bool b => b
  | .num n => n != 0
  | .str s => s != ""
  | .arr _ => true
  | .obj _ => true

/-- JavaScript truthiness where none stands for undefined. -/
def jsTruthy : Option Json → Bool
  | none => false
  | some j => j.truthy

/-- Property access that may throw: reading a property of null raises a
TypeError (agent.js line 497 reads message.type right after JSON.parse). -/
def jsGet : Json → String → Except String (Option Json)
  | .null, _ => .error "TypeError"
  | .obj fs, k => .ok (fs.lookup k)
  | _, _ => .ok none

/-- Required fields of config.json (agent.js lines 35-38). -/
structure AgentConfig where
  agentId : String
  secret : String
  name : String
  serverUrl : String

/-- An outbound envelope as built by agent.js. The object literals built by
the agent never set a requestId key, so the builders below always leave the
requestId component none (undefined). -/
structure OutMsg where
  type : String
  agentId : String
  secret : String
  requestId : Option String
  data : Json
  timestamp : Nat

/-- Results of os.hostname(), getLocalIpAddress(), os.platform(), os.arch(). -/
structure HostInfo where
  hostname : String
  ipAddress : String
  platform : String
  arch : String

/-- GOST service status record built by getGostStatus (agent.js lines 46-115). -/
structure GostStatus where
  running : Bool
  lastSync : Option String
  configHash : Option String
  ruleCount : Nat

/-- Environment for getGostStatus: queryThrows models the outer try/catch
(systemctl query failure), configInfo abstracts the read of
/etc/gost/config.json - Except.error is a read/parse failure caught by the
inner catch, ok none is a missing file, ok (some (hash, count)) is a parsed
file with its sha256 fragment and services length.  lastSyncLog abstracts the
journalctl scrape whose errors are ignored. -/
structure GostEnv where
  queryThrows : Bool
  isActive : Bool
  configInfo : Except String (Option (String × Nat))
  lastSyncLog : Option String

/-- agent.js lines 46-115: every path returns a status record, never throws. -/
def getGostStatus (env : GostEnv) : GostStatus :=
  if env.queryThrows then
    { running := false, lastSync := none, configHash := none, ruleCount := 0 }
  else if !env.isActive then
    { running := false, lastSync := none, configHash := none, ruleCount := 0 }
  else
    let hc : Option String × Nat :=
      match env.configInfo with
      | .error _ => (none, 0)
      | .ok none => (none, 0)
      | .ok (some (h, c)) => (some h, c)
    { running := true, lastSync := env.lastSyncLog,
      configHash := hc.1, ruleCount := hc.2 }

/-- One entry of os.cpus()[i].times. -/
structure CpuTimes where
  user : Nat
  nice : Nat
  sys : Nat
  idle : Nat
  irq : Nat

/-- Sum over all time buckets, as the for-in loop of agent.js line 161. -/
def CpuTimes.total (c : CpuTimes) : Nat := c.user + c.nice + c.sys + c.idle + c.irq

/-- One interface line of /proc/net/dev after splitting: the name keeps its
trailing colon, as in parts[0] of agent.js line 175. -/
structure NetEntry where
  name : String
  recv : Nat
  sent : Nat

def beginsWith : List Char → List Char → Bool
  | [], _ => true
  | _ :: _, [] => false
  | p :: ps, c :: cs => p == c && beginsWith ps cs

/-- The startsWith check of JavaScript strings, computed on character lists
so that concrete instances reduce definitionally. -/
def strBeginsWith (s p : String) : Bool := beginsWith p.data s.data

/-- Environment for getSystemStats.  osThrow models the outer catch (any os
module call throwing, giving the null return of line 206); netRead is the
fs.readFileSync of /proc/net/dev, already split into interface entries. -/
structure StatsEnv where
  osThrow : Bool
  cpus : List CpuTimes
  totalMem : Nat
  freeMem : Nat
  netRead : Except String (List NetEntry)
  uptime : Nat
  gost : GostEnv

structure MemoryStats where
  total : Nat
  used : Nat
  free : Nat
  permille : Nat

structure NetworkStats where
  received : Nat
  sent : Nat

structure SystemStats where
  cpu : Nat
  memory : MemoryStats
  network : NetworkStats
  uptime : Nat
  gost : GostStatus

/-- agent.js lines 150-208.  The cpu figure 100 - ~~(100*idle/total) and the
memory percentage (used/total*100).toFixed(1) are floating point in the
source; they are modelled with truncating natural division (permille is the
percentage times ten).  On a /proc/net/dev read failure the network counters
stay at their zero initialisation; a total failure of the os calls returns
none (null). -/
def getSystemStats (env : StatsEnv) : Option SystemStats :=
  if env.osThrow then none
  else
    let totalTick := env.cpus.foldl (fun a c => a + c.total) 0
    let totalIdle := env.cpus.foldl (fun a c => a + c.idle) 0
    let cpuUsage := 100 - 100 * totalIdle / totalTick
    let usedMem := env.totalMem - env.freeMem
    let network : NetworkStats :=
      match env.netRead with
      | .error _ => { received := 0, sent := 0 }
      | .ok entries =>
          entries.foldl
            (fun acc e =>
              if strBeginsWith e.name "lo:" then acc
              else { received := acc.received + e.recv, sent := acc.sent + e.sent })
            { received := 0, sent := 0 }
    some
      { cpu := cpuUsage,
        memory :=
          { total := env.totalMem, used := usedMem, free := env.freeMem,
            permille := usedMem * 1000 / env.totalMem },
        network := network,
        uptime := env.uptime,
        gost := getGostStatus env.gost }

def optStrJson : Option String → Json
  | none => .null
  | some s => .str s

def GostStatus.toJson (g : GostStatus) : Json :=
  .obj [("running", .bool g.running),
        ("lastSync", optStrJson g.lastSync),
        ("configHash", optStrJson g.configHash),
        ("ruleCount", .num g.ruleCount)]

/-- JSON form of the heartbeat data after the host fields, matching the
spread of the stats object at agent.js line 231. -/
def SystemStats.fieldsJson (st : SystemStats) : List (String × Json) :=
  [("cpu", .num st.cpu),
   ("memory", .obj [("total", .num st.memory.total), ("used", .num st.memory.used),
                    ("free", .num st.memory.free),
                    ("percentage", .str (toString (st.memory.permille / 10) ++ "." ++
                       toString (st.memory.permille % 10)))]),
   ("network", .obj [("received", .num st.network.received), ("sent", .num st.network.sent)]),
   ("uptime", .num st.uptime),
   ("gost", st.gost.toJson)]

/-- Register envelope built in the open handler (agent.js lines 544-556). -/
def registerMessage (cfg : AgentConfig) (h : HostInfo) (now : Nat) : OutMsg :=
  { type := "register", agentId := cfg.agentId, secret := cfg.secret, requestId := none,
    data := .obj [("name", .str cfg.name), ("hostname", .str h.hostname),
                  ("ipAddress", .str h.ipAddress), ("platform", .str h.platform),
                  ("arch", .str h.arch)],
    timestamp := now }

/-- Heartbeat envelope (agent.js lines 222-234). -/
def heartbeatMessage (cfg : AgentConfig) (h : HostInfo) (st : SystemStats) (now : Nat) : OutMsg :=
  { type := "heartbeat", agentId := cfg.agentId, secret := cfg.secret, requestId := none,
    data := .obj ([("hostname", .str h.hostname), ("ipAddress", .str h.ipAddress),
                   ("platform", .str h.platform), ("arch", .str h.arch)] ++ st.fieldsJson),
    timestamp := now }

/-- Progress envelope of sendInstallProgress (agent.js lines 268-279). -/
def installProgressMessage (cfg : AgentConfig) (stepName msg : String) (progress : Nat)
    (status : String) (now : Nat) : OutMsg :=
  { type := "install_progress", agentId := cfg.agentId, secret := cfg.secret, requestId := none,
    data := .obj [("step", .str stepName), ("message", .str msg),
                  ("progress", .num progress), ("status", .str status)],
    timestamp := now }

/-- Result envelope of installPollingClient (agent.js lines 356-367, 378-389, 412-423). -/
def installResultMessage (cfg : AgentConfig) (success : Bool) (msg output : String)
    (error : Option String) (now : Nat) : OutMsg :=
  { type := "install_result", agentId := cfg.agentId, secret := cfg.secret, requestId := none,
    data := .obj [("success", .bool success), ("message", .str msg),
                  ("output", .str output), ("error", optStrJson error)],
    timestamp := now }

/-- Result envelope of executeDeployScript (agent.js lines 455-466, 474-485).
JSON.stringify drops a property whose value is undefined, so an absent
nodeId on the deploy data yields a result without a nodeId key. -/
def deployResultMessage (cfg : AgentConfig) (nodeId : Option Json) (success : Bool)
    (output : String) (error : Option String) (now : Nat) : OutMsg :=
  { type := "deploy_result", agentId := cfg.agentId, secret := cfg.secret, requestId := none,
    data := .obj ((match nodeId with
                   | some v => [("nodeId", v)]
                   | none => []) ++
                  [("success", .bool success), ("output", .str output),
                   ("error", optStrJson error)]),
    timestamp := now }

/-- Outcome of one bash run of the deploy script: the temp file write can
throw, the execAsync call either resolves with stdout/stderr or rejects
(non-zero exit, or the 5 minute timeout) with a message and any captured
stdout. -/
inductive DeployRun where
  | writeFailed (errMsg : String)
  | execOk (stdout stderr : String)
  | execFailed (errMsg : String) (stdout : String)

/-- What a deploy handler run leaves behind: whether the temp script file was
written, whether it was removed, and the result envelope it builds. -/
structure DeployOutcome where
  scriptWritten : Bool
  scriptRemoved : Bool
  message : OutMsg

/-- agent.js lines 433-491.  The unlink of the temp script sits inside the
try block after the await of execAsync, with its own error-ignoring
try/catch (unlinkOk models that unlink call succeeding); when execAsync
rejects, control jumps to the outer catch, which only builds and sends the
failure envelope - no unlink runs on that path, and none on a
writeFileSync failure either. -/
def executeDeployScript (cfg : AgentConfig) (deployData : Json)
    (run : DeployRun) (unlinkOk : Bool) (now : Nat) : DeployOutcome :=
  match run with
  | .writeFailed errMsg =>
      { scriptWritten := false, scriptRemoved := false,
        message := deployResultMessage cfg (deployData.get "nodeId") false "" (some errMsg) now }
  | .execOk stdout stderr =>
      { scriptWritten := true, scriptRemoved := unlinkOk,
        message := deployResultMessage cfg (deployData.get "nodeId") true stdout
          (if stderr = "" then none else some stderr) now }
  | .execFailed errMsg stdout =>
      { scriptWritten := true, scriptRemoved := false,
        message := deployResultMessage cfg (deployData.get "nodeId") false stdout
          (some errMsg) now }

/-- Observable actions of handleMessage / handleCommand: console logging and
the asynchronous handler invocations they start. -/
inductive Effect where
  | logHandleError
  | logReceivedType (t : Option Json)
  | logCommandType (t : Option Json)
  | startInstall (script : Option Json)
  | startDeploy (config : Option Json)
  | startDeployTop (data : Option Json)
  | logUnknownCommand (t : Option Json)
  | logUnknownType (t : Option Json)
  | logRestart
  | scheduleExit (delayMs : Nat)

/-- True on the effects that start a command handler instance. -/
def isHandlerStart : Effect → Bool
  | .startInstall _ => true
  | .startDeploy _ => true
  | .startDeployTop _ => true
  | _ => false

/-- True on a scheduled process exit. -/
def isScheduleExit : Effect → Bool
  | .scheduleExit _ => true
  | _ => false

/-- agent.js lines 244-263: switch on commandData.type. -/
def handleCommand (commandData : Json) : List Effect :=
  Effect.logCommandType (commandData.get "type") ::
  match commandData.get "type" with
  | some (.str "install_polling_client") => [.startInstall (commandData.get "script")]
  | some (.str "deploy") => [.startDeploy (commandData.get "config")]
  | some (.str "restart") => [.logRestart, .scheduleExit 3000]
  | t => [.logUnknownCommand t]

/-- agent.js lines 494-521: JSON.parse inside try/catch, then a switch on
message.type.  A parse failure (or a TypeError from reading message.type of
null) lands in the catch, which logs and returns.  The command case guards
on message.data and message.data.type being truthy before calling
handleCommand; the deploy case passes message.data (possibly undefined) to
executeDeployScript. -/
def handleMessage (raw : Except String Json) : List Effect :=
  match raw with
  | .error _ => [.logHandleError]
  | .ok msg =>
      match jsGet msg "type" with
      | .error _ => [.logHandleError]
      | .ok t =>
          Effect.logReceivedType t ::
          match t with
          | some (.str "command") =>
              match msg.get "data" with
              | some d =>
                  if d.truthy && jsTruthy (d.get "type") then handleCommand d else []
              | none => []
          | some (.str "deploy") => [.startDeployTop (msg.get "data")]
          | some (.str "restart") => [.logRestart, .scheduleExit 3000]
          | _ => [.logUnknownType t]

/-- Sequential processing of inbound frames on one connection: handleMessage
never propagates an exception, so every later frame is reached. -/
def processFrames : List (Except String Json) → List Effect
  | [] => []
  | f :: rest => handleMessage f ++ processFrames rest

/-- Module-level mutable state of agent.js lines 40-43: the socket and the
two timers.  Timers carry their period or delay in milliseconds. -/
structure SessionSt where
  isConnected : Bool
  wsOpen : Bool
  heartbeatTimer : Option Nat
  reconnectTimer : Option Nat

/-- setInterval period of agent.js line 568. -/
def heartbeatIntervalMs : Nat := 30000

/-- setTimeout delay of agent.js lines 591 and 595. -/
def reconnectDelayMs : Nat := 5000

/-- agent.js lines 211-241: bail out unless connected with an open socket,
skip the send when getSystemStats returned null, else send one heartbeat. -/
def sendHeartbeat (cfg : AgentConfig) (s : SessionSt) (h : HostInfo)
    (env : StatsEnv) (now : Nat) : List OutMsg :=
  if s.isConnected && s.wsOpen then
    match getSystemStats env with
    | none => []
    | some st => [heartbeatMessage cfg h st now]
  else []

/-- Transport and timer events driving the session. -/
inductive Event where
  | transportOpen (h : HostInfo) (env : StatsEnv) (now : Nat)
  | transportClose
  | heartbeatTick (h : HostInfo) (env : StatsEnv) (now : Nat)
  | reconnectFire
  | frame (raw : Except String Json)

def Event.isOpen : Event → Bool
  | .transportOpen _ _ _ => true
  | _ => false

structure StepRes where
  st : SessionSt
  msgs : List OutMsg
  effs : List Effect

/-- One event of the agent event loop.
transportOpen: the open handler of agent.js lines 539-569 (set isConnected,
send register, send one immediate heartbeat, start the 30 second interval).
transportClose: the close handler of lines 579-592 (clear isConnected,
clear the heartbeat interval, schedule reconnect in 5000 ms).
heartbeatTick: the interval firing - a cleared interval never fires, so the
tick only sends when the timer is set.
reconnectFire: connect() of lines 524-537 (clear the reconnect timer, open
a new not-yet-connected socket).
frame: the message handler, whose effects are those of handleMessage and
which touches none of the connection state. -/
def step (cfg : AgentConfig) (s : SessionSt) : Event → StepRes
  | .transportOpen h env now =>
      let s1 : SessionSt := { s with isConnected := true, wsOpen := true }
      { st := { s1 with heartbeatTimer := some heartbeatIntervalMs },
        msgs := registerMessage cfg h now :: sendHeartbeat cfg s1 h env now,
        effs := [] }
  | .transportClose =>
      { st := { isConnected := false, wsOpen := false,
                heartbeatTimer := none, reconnectTimer := some reconnectDelayMs },
        msgs := [], effs := [] }
  | .heartbeatTick h env now =>
      { st := s,
        msgs := if s.heartbeatTimer.isSome then sendHeartbeat cfg s h env now else [],
        effs := [] }
  | .reconnectFire =>
      { st := { s with reconnectTimer := none, wsOpen := false }, msgs := [], effs := [] }
  | .frame raw =>
      { st := s, msgs := [], effs := handleMessage raw }

/-- Run a list of events, collecting the outbound messages in order. -/
def runTrace (cfg : AgentConfig) (s : SessionSt) : List Event → SessionSt × List OutMsg
  | [] => (s, [])
  | e :: es =>
      let r := step cfg s e
      let rest := runTrace cfg r.st es
      (rest.1, r.msgs ++ rest.2)

/- Concrete fixtures used by counterexamples and witnesses. -/

def cfg0 : AgentConfig :=
  { agentId := "agent-1", secret := "s3cret", name := "vps-1",
    serverUrl := "wss://panel.example/ws" }

def host0 : HostInfo :=
  { hostname := "vps-1", ipAddress := "203.0.113.7", platform := "linux", arch := "x64" }

def activeSt0 : SessionSt :=
  { isConnected := true, wsOpen := true, heartbeatTimer := some 30000, reconnectTimer := none }

/-- Stats environment where /proc/net/dev is unreadable and the GOST status
query throws: the partial-failure scenario of claim C7. -/
def envPartial0 : StatsEnv :=
  { osThrow := false, cpus := [{ user := 1, nice := 0, sys := 0, idle := 1, irq := 0 }],
    totalMem := 100, freeMem := 25, netRead := Except.error "EACCES", uptime := 7,
    gost := { queryThrows := true, isActive := false,
              configInfo := Except.ok none, lastSyncLog := none } }

/-- Fully healthy stats environment. -/
def envOk0 : StatsEnv :=
  { osThrow := false, cpus := [{ user := 1, nice := 0, sys := 0, idle := 1, irq := 0 }],
    totalMem := 100, freeMem := 25,
    netRead := Except.ok [{ name := "eth0:", recv := 5, sent := 7 },
                          { name := "lo:", recv := 9, sent := 9 }],
    uptime := 7,
    gost := { queryThrows := false, isActive := true,
              configInfo := Except.ok (some ("abcd", 3)),
              lastSyncLog := some "Oct 12 10:00:00" } }

/-- The snapshot getSystemStats computes on envOk0. -/
def stats0 : SystemStats :=
  { cpu := 50,
    memory := { total := 100, used := 75, free := 25, permille := 750 },
    network := { received := 5, sent := 7 },
    uptime := 7,
    gost := { running := true, lastSync := some "Oct 12 10:00:00",
              configHash := some "abcd", ruleCount := 3 } }

/-- The deploy payload carried as data.config of a command envelope. -/
def deployData0 : Json :=
  .obj [("nodeId", .str "node-1"), ("script", .str "echo hi")]

/-- A command envelope with requestId r1 whose data dispatches the deploy
handler. -/
def dupCommandFrame : Json :=
  .obj [("type", .str "command"), ("requestId", .str "r1"),
        ("data", .obj [("type", .str "deploy"), ("config", deployData0)])]

/-- A well-formed JSON frame of type deploy that lacks the data payload. -/
def bareDeployFrame : Json :=
  .obj [("type", .str "deploy")]

/-- An error envelope reporting an authentication failure. -/
def authErrorFrame : Json :=
  .obj [("type", .str "error"),
        ("data", .obj [("reason", .str "authentication failed")])]

/-- A command envelope with requestId r1 and a ping command. -/
def pingCommandFrame : Json :=
  .obj [("type", .str "command"), ("requestId", .str "r1"),
        ("data", .obj [("type", .str "ping")])]

/- Theorems settling the claims. -/

/-- C1 counterexample: the claim says a second command with the same
requestId while the first is in flight does not start a second handler
instance.  Processing the same requestId-r1 command frame twice starts the
deploy handler twice - agent.js keeps no record of in-flight request ids
and never reads the requestId field, and no duplicate-ignored log exists
anywhere in the code. -/
theorem duplicate_command_starts_second_handler :
    (processFrames [Except.ok dupCommandFrame, Except.ok dupCommandFrame]).countP
      isHandlerStart = 2 := by rfl

/-- C1 amended: dispatching is history independent - each inbound frame is
handled exactly as if it were the first, so a retransmitted command with an
in-flight requestId starts a second handler instance rather than being
ignored; in particular the requestId-r1 command frame starts exactly one
handler instance on every dispatch. -/
theorem dispatch_is_history_independent :
    (∀ (pre : List (Except String Json)) (f : Except String Json),
        processFrames (pre ++ [f]) = processFrames pre ++ handleMessage f)
    ∧ (handleMessage (Except.ok dupCommandFrame)).countP isHandlerStart = 1 := by
  constructor
  · intro pre f
    induction pre with
    | nil => simp [processFrames]
    | cons p ps ih => simp [processFrames, ih]
  · rfl

/-- C2: evaluating executeDeployScript at a failing input.  When the script
run rejects (non-zero exit or timeout) the temp script file is never
removed - the unlink sits inside the try block after the await, so the
outer catch path skips it - while on the success path it is removed.  The
spec (and the sibling installPollingClient, which unlinks on every exit of
its close handler) make cleanup on all paths the clear intent, so this is a
slip in the code. -/
theorem deploy_temp_file_kept_on_failure :
    (executeDeployScript cfg0 deployData0
        (DeployRun.execFailed "Command failed: bash /tmp/deploy_node-1_100.sh" "")
        true 100).scriptRemoved = false
    ∧ (executeDeployScript cfg0 deployData0 (DeployRun.execOk "deployed" "")
        true 100).scriptRemoved = true := ⟨rfl, rfl⟩

/-- C3 counterexample: the command envelope carries requestId r1, but the
deploy result envelope the handler builds carries no requestId at all - it
echoes the id zero times, not exactly once. -/
theorem deploy_result_echoes_no_requestId :
    Json.get dupCommandFrame "requestId" = some (Json.str "r1")
    ∧ (executeDeployScript cfg0 deployData0 (DeployRun.execOk "done" "") true 100).message.requestId
        = none := ⟨rfl, rfl⟩

/-- C3 amended: result messages carry no requestId on any path; the deploy
result is typed deploy_result and echoes the nodeId of the deploy data
inside its data object, so correlation is by agent identity and nodeId,
not by requestId. -/
theorem result_messages_have_no_requestId :
    ∀ (cfg : AgentConfig) (dd : Json) (run : DeployRun) (unlinkOk : Bool) (now : Nat),
      (executeDeployScript cfg dd run unlinkOk now).message.requestId = none
      ∧ (executeDeployScript cfg dd run unlinkOk now).message.type = "deploy_result"
      ∧ (executeDeployScript cfg dd run unlinkOk now).message.data.get "nodeId"
          = dd.get "nodeId" := by
  have hNode : ∀ (cfg : AgentConfig) (nodeId : Option Json) (succ : Bool)
      (out : String) (err : Option String) (now : Nat),
      (deployResultMessage cfg nodeId succ out err now).data.get "nodeId" = nodeId := by
    intro cfg nodeId succ out err now
    cases nodeId <;> rfl
  intro cfg dd run unlinkOk now
  cases run <;> exact ⟨rfl, rfl, hNode _ _ _ _ _ _⟩

/-- C4 counterexample: a well-formed frame of type deploy that lacks the
expected data payload is not rejected by decoding and is not discarded -
handleMessage passes the undefined data straight to the deploy handler (no
error log appears, and the first line of executeDeployScript would then
throw a TypeError reading nodeId of undefined outside any catch that
handleMessage owns). -/
theorem structureless_deploy_frame_dispatched :
    handleMessage (Except.ok bareDeployFrame)
      = [Effect.logReceivedType (some (Json.str "deploy")), Effect.startDeployTop none]
    ∧ (handleMessage (Except.ok bareDeployFrame)).countP isHandlerStart = 1 := ⟨rfl, rfl⟩

/-- C4 amended: a frame that is not valid JSON makes JSON.parse throw; the
catch logs the failure, the frame contributes no handler start and its
handling leaves the session state untouched, and every later frame on the
same connection is processed exactly as if the bad frame had not arrived.
Frames that are valid JSON but lack the expected inner structure are not
covered: a deploy frame without data is dispatched, not discarded. -/
theorem invalid_json_logged_and_discarded :
    ∀ (e : String) (rest : List (Except String Json)),
      processFrames (Except.error e :: rest) = Effect.logHandleError :: processFrames rest
      ∧ (handleMessage (Except.error e)).countP isHandlerStart = 0
      ∧ ∀ (cfg : AgentConfig) (s : SessionSt) (raw : Except String Json),
          (step cfg s (Event.frame raw)).st = s := by
  intro e rest
  exact ⟨rfl, rfl, fun cfg s raw => rfl⟩

/-- C5 counterexample: on receiving an error envelope reporting an
authentication failure, the agent logs it as an unknown message type and
discards it - no process exit is scheduled - and the close handler then
unconditionally schedules a reconnect in 5000 ms, so the agent keeps
retrying with the invalid credential. -/
theorem auth_error_ignored_and_reconnect_scheduled :
    handleMessage (Except.ok authErrorFrame)
      = [Effect.logReceivedType (some (Json.str "error")),
         Effect.logUnknownType (some (Json.str "error"))]
    ∧ (handleMessage (Except.ok authErrorFrame)).countP isScheduleExit = 0
    ∧ (step cfg0 activeSt0 Event.transportClose).st.reconnectTimer = some 5000 :=
  ⟨rfl, rfl, rfl⟩

/-- C5 amended: the agent has no handling of error envelopes at all - any
error-typed message, whatever its data, falls through to the default
branch, is logged as an unknown message type and discarded without
scheduling a process exit, and every transport close schedules a 5 second
reconnect regardless of what was received before. -/
theorem error_frames_unknown_and_close_always_reconnects :
    ∀ (d : Json) (cfg : AgentConfig) (s : SessionSt),
      handleMessage (Except.ok (Json.obj [("type", Json.str "error"), ("data", d)]))
        = [Effect.logReceivedType (some (Json.str "error")),
           Effect.logUnknownType (some (Json.str "error"))]
      ∧ (step cfg s Event.transportClose).st.reconnectTimer = some reconnectDelayMs := by
  intro d cfg s
  exact ⟨rfl, rfl⟩

/-- C6 counterexample: on the command envelope with requestId r1 and a ping
command, handleCommand falls into its default branch - the ping is logged
as an unknown command type, no handler starts, and no message is sent, so
the agent does not respond with the pong response the claim requires. -/
theorem ping_command_gets_no_response :
    handleMessage (Except.ok pingCommandFrame)
      = [Effect.logReceivedType (some (Json.str "command")),
         Effect.logCommandType (some (Json.str "ping")),
         Effect.logUnknownCommand (some (Json.str "ping"))]
    ∧ (handleMessage (Except.ok pingCommandFrame)).countP isHandlerStart = 0 := ⟨rfl, rfl⟩

/-- C6 amended: for every requestId, a ping command is dispatched to
handleCommand, hits the default branch and is merely logged as an unknown
command type; nothing is sent back, and no envelope the agent ever builds
has type response. -/
theorem ping_logged_as_unknown_command :
    ∀ (rid : String) (cfg : AgentConfig) (h : HostInfo) (st : SystemStats)
      (stp msgTxt out : String) (progress : Nat) (status : String) (succ : Bool)
      (oerr : Option String) (nodeId : Option Json) (now : Nat),
      handleMessage (Except.ok (Json.obj
          [("type", Json.str "command"), ("requestId", Json.str rid),
           ("data", Json.obj [("type", Json.str "ping")])]))
        = [Effect.logReceivedType (some (Json.str "command")),
           Effect.logCommandType (some (Json.str "ping")),
           Effect.logUnknownCommand (some (Json.str "ping"))]
      ∧ (registerMessage cfg h now).type ≠ "response"
      ∧ (heartbeatMessage cfg h st now).type ≠ "response"
      ∧ (installProgressMessage cfg stp msgTxt progress status now).type ≠ "response"
      ∧ (installResultMessage cfg succ msgTxt out oerr now).type ≠ "response"
      ∧ (deployResultMessage cfg nodeId succ out oerr now).type ≠ "response" := by
  intro rid cfg h st stp msgTxt out progress status succ oerr nodeId now
  refine ⟨rfl, ?_, ?_, ?_, ?_, ?_⟩
  · exact show ("register" : String) ≠ "response" by decide
  · exact show ("heartbeat" : String) ≠ "response" by decide
  · exact show ("install_progress" : String) ≠ "response" by decide
  · exact show ("install_result" : String) ≠ "response" by decide
  · exact show ("deploy_result" : String) ≠ "response" by decide

/-- C7: when the network counter file is unreadable and the GOST status
query throws, getSystemStats still returns a snapshot - the network field
degrades to zero counters and the gost field to a not-running default -
and sendHeartbeat on a connected session still sends exactly one heartbeat
envelope for the interval. -/
theorem partial_stats_failure_degrades_and_heartbeat_sent :
    ∀ (cfg : AgentConfig) (s : SessionSt) (h : HostInfo) (env : StatsEnv)
      (now : Nat) (emsg : String),
      env.osThrow = false →
      env.netRead = Except.error emsg →
      env.gost.queryThrows = true →
      s.isConnected = true →
      s.wsOpen = true →
      (getSystemStats env).isSome = true
      ∧ (getSystemStats env).map (fun st => st.network) = some { received := 0, sent := 0 }
      ∧ (getSystemStats env).map (fun st => st.gost)
          = some { running := false, lastSync := none, configHash := none, ruleCount := 0 }
      ∧ (sendHeartbeat cfg s h env now).length = 1
      ∧ (sendHeartbeat cfg s h env now).map (fun m => m.type) = ["heartbeat"] := by
  intro cfg s h env now emsg hOs hNet hGost hConn hWs
  refine ⟨?_, ?_, ?_, ?_, ?_⟩ <;>
    simp [getSystemStats, getGostStatus, sendHeartbeat, heartbeatMessage,
      hOs, hNet, hGost, hConn, hWs]

/-- C7 witness: the degraded-environment scenario evaluated at a concrete
connected session and a concrete environment with an unreadable
/proc/net/dev and a throwing GOST query. -/
theorem partial_stats_failure_witness :
    (getSystemStats envPartial0).isSome = true
    ∧ (getSystemStats envPartial0).map (fun st => st.network)
        = some { received := 0, sent := 0 }
    ∧ (getSystemStats envPartial0).map (fun st => st.gost)
        = some { running := false, lastSync := none, configHash := none, ruleCount := 0 }
    ∧ (sendHeartbeat cfg0 activeSt0 host0 envPartial0 99).length = 1
    ∧ (sendHeartbeat cfg0 activeSt0 host0 envPartial0 99).map (fun m => m.type)
        = ["heartbeat"] :=
  partial_stats_failure_degrades_and_heartbeat_sent cfg0 activeSt0 host0 envPartial0 99
    "EACCES" rfl rfl rfl rfl rfl

/-- Helper for C8: with the heartbeat timer cleared, any run of events that
contains no transport open produces no outbound message at all. -/
theorem runTrace_silent_without_open :
    ∀ (cfg : AgentConfig) (events : List Event) (s : SessionSt),
      s.heartbeatTimer = none →
      (∀ e ∈ events, e.isOpen = false) →
      (runTrace cfg s events).2 = [] := by
  intro cfg events
  induction events with
  | nil => intro s _ _; rfl
  | cons e es ih =>
      intro s hTimer hNoOpen
      have hes : ∀ x ∈ es, x.isOpen = false := fun x hx => hNoOpen x (List.mem_cons_of_mem e hx)
      have he : e.isOpen = false := hNoOpen e (List.mem_cons_self e es)
      cases e with
      | transportOpen h env now => simp [Event.isOpen] at he
      | transportClose =>
          have h2 := ih { isConnected := false, wsOpen := false, heartbeatTimer := none,
                          reconnectTimer := some reconnectDelayMs } rfl hes
          simp [runTrace, step, h2]
      | heartbeatTick h env now =>
          simp [runTrace, step, hTimer, ih _ hTimer hes]
      | reconnectFire =>
          have : ({ s with reconnectTimer := none, wsOpen := false } : SessionSt).heartbeatTimer
              = none := hTimer
          simp [runTrace, step, ih _ this hes]
      | frame raw =>
          simp [runTrace, step, ih _ hTimer hes]

/-- C8: after a transport close in any state, the close handler has cleared
the heartbeat interval, and as long as no transport open occurs no
heartbeat envelope is sent - in fact no envelope at all, since register and
heartbeat sends both live in the open handler. -/
theorem no_heartbeat_after_close_until_open :
    ∀ (cfg : AgentConfig) (s : SessionSt) (events : List Event),
      (∀ e ∈ events, e.isOpen = false) →
      ((runTrace cfg (step cfg s Event.transportClose).st events).2).countP
        (fun m => m.type == "heartbeat") = 0 := by
  intro cfg s events hNoOpen
  have h0 : (step cfg s Event.transportClose).st.heartbeatTimer = none := rfl
  rw [runTrace_silent_without_open cfg events _ h0 hNoOpen]
  rfl

/-- C8 witness: a concrete post-close run with a pending tick, a reconnect
firing and an inbound frame, none of which sends a heartbeat. -/
theorem no_heartbeat_after_close_witness :
    ((runTrace cfg0 (step cfg0 activeSt0 Event.transportClose).st
        [Event.heartbeatTick host0 envOk0 50, Event.reconnectFire,
         Event.frame (Except.error "bad json")]).2).countP
      (fun m => m.type == "heartbeat") = 0 :=
  no_heartbeat_after_close_until_open cfg0 activeSt0
    [Event.heartbeatTick host0 envOk0 50, Event.reconnectFire,
     Event.frame (Except.error "bad json")]
    (by intro e he; fin_cases he <;> rfl)

/-- C9: the close handler schedules the next connect attempt 5000 ms after
the close, within the 5 to 6 second window of the claim, and the open
handler after a successful reconnect sends the register envelope followed
by exactly one immediate heartbeat and starts the 30000 ms heartbeat
interval, so exactly one heartbeat precedes the first interval tick. -/
theorem reconnect_delay_and_single_initial_heartbeat :
    ∀ (cfg : AgentConfig) (s : SessionSt) (h : HostInfo) (env : StatsEnv)
      (now : Nat) (st : SystemStats),
      getSystemStats env = some st →
      (step cfg s (Event.transportOpen h env now)).msgs
          = [registerMessage cfg h now, heartbeatMessage cfg h st now]
      ∧ ((step cfg s (Event.transportOpen h env now)).msgs).countP
          (fun m => m.type == "heartbeat") = 1
      ∧ (step cfg s (Event.transportOpen h env now)).st.heartbeatTimer
          = some heartbeatIntervalMs
      ∧ heartbeatIntervalMs = 30000
      ∧ (step cfg s Event.transportClose).st.reconnectTimer = some reconnectDelayMs
      ∧ reconnectDelayMs = 5000
      ∧ 5000 ≤ reconnectDelayMs
      ∧ reconnectDelayMs ≤ 6000 := by
  intro cfg s h env now st hst
  have hmsgs : (step cfg s (Event.transportOpen h env now)).msgs
      = [registerMessage cfg h now, heartbeatMessage cfg h st now] := by
    simp [step, sendHeartbeat, hst]
  refine ⟨hmsgs, ?_, rfl, rfl, rfl, rfl, le_refl _, by decide⟩
  rw [hmsgs]
  rfl

/-- C9 witness: the scenario at a concrete configuration, session state and
healthy stats environment, with the snapshot getSystemStats computes. -/
theorem reconnect_delay_witness :
    (step cfg0 activeSt0 (Event.transportOpen host0 envOk0 42)).msgs
        = [registerMessage cfg0 host0 42, heartbeatMessage cfg0 host0 stats0 42]
    ∧ ((step cfg0 activeSt0 (Event.transportOpen host0 envOk0 42)).msgs).countP
        (fun m => m.type == "heartbeat") = 1
    ∧ (step cfg0 activeSt0 (Event.transportOpen host0 envOk0 42)).st.heartbeatTimer
        = some heartbeatIntervalMs
    ∧ heartbeatIntervalMs = 30000
    ∧ (step cfg0 activeSt0 Event.transportClose).st.reconnectTimer = some reconnectDelayMs
    ∧ reconnectDelayMs = 5000
    ∧ 5000 ≤ reconnectDelayMs
    ∧ reconnectDelayMs ≤ 6000 :=
  reconnect_delay_and_single_initial_heartbeat cfg0 activeSt0 host0 envOk0 42 stats0 (by rfl)

/-- C10: every outbound envelope the agent builds - register, heartbeat,
install_progress, install_result and deploy_result - carries the configured
agentId and shared secret as top-level fields, so the credential travels on
every frame, not only during registration. -/
theorem all_outbound_messages_carry_credentials :
    ∀ (cfg : AgentConfig) (h : HostInfo) (st : SystemStats)
      (stp msgTxt out : String) (progress : Nat) (status : String) (succ : Bool)
      (oerr : Option String) (nodeId : Option Json) (now : Nat),
      ((registerMessage cfg h now).agentId = cfg.agentId
        ∧ (registerMessage cfg h now).secret = cfg.secret)
      ∧ ((heartbeatMessage cfg h st now).agentId = cfg.agentId
        ∧ (heartbeatMessage cfg h st now).secret = cfg.secret)
      ∧ ((installProgressMessage cfg stp msgTxt progress status now).agentId = cfg.agentId
        ∧ (installProgressMessage cfg stp msgTxt progress status now).secret = cfg.secret)
      ∧ ((installResultMessage cfg succ msgTxt out oerr now).agentId = cfg.agentId
        ∧ (installResultMessage cfg succ msgTxt out oerr now).secret = cfg.secret)
      ∧ ((deployResultMessage cfg nodeId succ out oerr now).agentId = cfg.agentId
        ∧ (deployResultMessage cfg nodeId succ out oerr now).secret = cfg.secret) := by
  intro cfg h st stp msgTxt out progress status succ oerr nodeId now
  exact ⟨⟨rfl, rfl⟩, ⟨rfl, rfl⟩, ⟨rfl, rfl⟩, ⟨rfl, rfl⟩, ⟨rfl, rfl⟩⟩
